import Mathlib

/-!
Verification development for the terminal link handler
(src/vs/workbench/parts/terminal/electron-browser/terminalLinkHandler.ts).

The file embeds, as executable Lean definitions:
* the two local-link regular expressions (a small backtracking regex
  engine with ECMAScript matching semantics, plus the two patterns
  translated literally from the source strings);
* the path-resolution algorithm of `_resolvePath`, with the filesystem
  existence check, Node's `path.posix.join`, the process environment and
  the workspace context supplied as explicit parameters;
* the click-gating wrapper `_wrapLinkHandler`;
* the xterm registration calls made by the constructor,
  `registerLocalLinkHandler` and `registerCustomLinkHandler`.
-/

/-! ## A small regex engine with ECMAScript backtracking semantics

`RE` is the abstract syntax of the fragment of ECMAScript regexes used by
the two link patterns: character, character class, alternation, sequence,
greedy `?` and greedy `*`.  `runRE` enumerates the possible matches of a
regex at the start of the input in backtracking preference order (first
element = the match the ECMAScript engine produces):
* alternation prefers the left alternative;
* `?` and `*` are greedy;
* per the ECMAScript RepeatMatcher, a loop iteration of `*` that matches
  the empty string fails (no infinite empty loops), hence the
  `!p.1.isEmpty` filter; backtracking inside the iteration can still
  select a later, consuming alternative.
`X+` is `X` followed by `X*`: the mandatory first iteration may match
empty, every further iteration must consume, exactly the RepeatMatcher
behaviour for min = 1.  The fuel argument only bounds `*` unfoldings; an
iteration consumes at least one character, so fuel = input length never
runs out.
-/

inductive RE where
  | eps : RE
  | chr : Char → RE
  | cls : (Char → Bool) → RE
  | alt : RE → RE → RE
  | seq : RE → RE → RE
  | opt : RE → RE
  | star : RE → RE

def runRE : Nat → RE → List Char → List (List Char × List Char)
  | 0, _, _ => []
  | fuel + 1, e, s =>
    match e, s with
    | RE.eps, s => [([], s)]
    | RE.chr _, [] => []
    | RE.chr c, x :: xs => if x = c then [([x], xs)] else []
    | RE.cls _, [] => []
    | RE.cls p, x :: xs => if p x then [([x], xs)] else []
    | RE.alt r t, s => runRE fuel r s ++ runRE fuel t s
    | RE.seq r t, s =>
        (runRE fuel r s).flatMap
          (fun p => (runRE fuel t p.2).map (fun q => (p.1 ++ q.1, q.2)))
    | RE.opt r, s => runRE fuel r s ++ [([], s)]
    | RE.star r, s =>
        (((runRE fuel r s).filter (fun p => !p.1.isEmpty)).flatMap
          (fun p => (runRE fuel (RE.star r) p.2).map (fun q => (p.1 ++ q.1, q.2))))
        ++ [([], s)]

/-- The ECMAScript quantifier `X+`, i.e. `X` followed by `X*`. -/
def REplus (r : RE) : RE := RE.seq r (RE.star r)

/-- Syntactic size of a regex, used for the fuel bound. -/
def reSize : RE → Nat
  | RE.eps => 1
  | RE.chr _ => 1
  | RE.cls _ => 1
  | RE.alt r t => 1 + reSize r + reSize t
  | RE.seq r t => 1 + reSize r + reSize t
  | RE.opt r => 1 + reSize r
  | RE.star r => 1 + reSize r

/-- The preferred match of `e` anchored at the start of `s` (the overall
match the engine reports there), if any.

Fuel bound: one fuel unit is spent per engine step.  Along any branch,
descending into a subexpression keeps the input length and strictly
shrinks the expression, and a `*` unfolding keeps the expression but
strictly shrinks the input (empty iterations are filtered out), so the
recursion depth is at most `(length + 2) * (reSize e + 2)`; with that
fuel the out-of-fuel clause is unreachable. -/
def reMatchAt (e : RE) (s : List Char) : Option (List Char) :=
  match runRE ((s.length + 2) * (reSize e + 2)) e s with
  | [] => none
  | p :: _ => some p.1

/-- Leftmost match: try each start position left to right, returning the
preferred match at the first position where the pattern matches. -/
def reFirstMatch : RE → List Char → Option (List Char)
  | e, [] => reMatchAt e []
  | e, x :: xs =>
    match reMatchAt e (x :: xs) with
    | some m => some m
    | none => reFirstMatch e xs

/-! ## The two local-link patterns, translated from the source strings

Source (terminalLinkHandler.ts, lines 16-27):
* pathPrefix            = `(\.\.?|\~)`
* pathSeparatorClause   = `\/`
* excludedPathCharactersClause = `[^\0\s!$` backtick `&*()\[\]+'":;]`
* escapedExcludedPathCharactersClause =
    `(\\s|\\!|\\$|\\` backtick `|\\&|\\*|(|)|\+)`
  (note: the seventh alternative is the group `(|)`, which matches the
  empty string, and the eighth is `\+`, which matches a literal `+`)
* UNIX_LIKE_LOCAL_LINK_REGEX =
    `((\.\.?|\~)?(\/(excluded|escaped))+)+)`
* winPathPrefix         = `([a-zA-Z]:|\.\.?|\~)`
* winPathSeparatorClause = `(\\|\/)`
* winExcludedPathCharactersClause adds `< > ? |` and `/` to the
  excluded set.
Capture groups do not affect the matched span (no backreferences), so
they are not represented; match index 1 is the whole match in both
patterns.
-/

/-- ECMAScript `\s`: tab, LF, VT, FF, CR, space, NBSP, and the Unicode
space separators recognised by the spec. -/
def jsWhitespace (c : Char) : Bool :=
  c.toNat = 9 || c.toNat = 10 || c.toNat = 11 || c.toNat = 12 ||
  c.toNat = 13 || c.toNat = 32 || c.toNat = 160 || c.toNat = 5760 ||
  (decide (8192 ≤ c.toNat) && decide (c.toNat ≤ 8202)) ||
  c.toNat = 8232 || c.toNat = 8233 || c.toNat = 8239 || c.toNat = 8287 ||
  c.toNat = 12288 || c.toNat = 65279

/-- Membership in the Unix exclusion set `[\0 \s ! $ ` backtick ` & * ( ) [ ] + ' " : ;]`;
the character class of the pattern is its complement. -/
def unixExcludedChar (c : Char) : Bool :=
  c = Char.ofNat 0 || jsWhitespace c || c = '!' || c = '$' ||
  c = Char.ofNat 96 || c = '&' || c = '*' || c = '(' || c = ')' ||
  c = '[' || c = ']' || c = '+' || c = Char.ofNat 39 ||
  c = Char.ofNat 34 || c = ':' || c = ';'

/-- The Windows exclusion set additionally bars `< > ? |` and `/`. -/
def winExcludedChar (c : Char) : Bool :=
  c = Char.ofNat 0 || c = '<' || c = '>' || c = '?' || c = '|' ||
  c = '/' || jsWhitespace c || c = '!' || c = '$' ||
  c = Char.ofNat 96 || c = '&' || c = '*' || c = '(' || c = ')' ||
  c = '[' || c = ']' || c = '+' || c = Char.ofNat 39 ||
  c = Char.ofNat 34 || c = ':' || c = ';'

/-- `(\\s|\\!|\\$|\\` backtick `|\\&|\\*|(|)|\+)` exactly as written in the
source: six backslash-escape pairs, then the empty group `(|)`, then the
escaped literal `\+` (a bare `+`). -/
def escapedClause : RE :=
  RE.alt (RE.seq (RE.chr '\\') (RE.chr 's'))
  (RE.alt (RE.seq (RE.chr '\\') (RE.chr '!'))
  (RE.alt (RE.seq (RE.chr '\\') (RE.chr '$'))
  (RE.alt (RE.seq (RE.chr '\\') (RE.chr (Char.ofNat 96)))
  (RE.alt (RE.seq (RE.chr '\\') (RE.chr '&'))
  (RE.alt (RE.seq (RE.chr '\\') (RE.chr '*'))
  (RE.alt (RE.alt RE.eps RE.eps)
          (RE.chr '+')))))))

/-- `(\.\.?|\~)` -/
def pathPreClause : RE :=
  RE.alt (RE.seq (RE.chr '.') (RE.opt (RE.chr '.'))) (RE.chr '~')

/-- One Unix path character: excluded-class complement, or an alternative
of the escaped clause. -/
def unixPathChar : RE :=
  RE.alt (RE.cls (fun c => !unixExcludedChar c)) escapedClause

/-- `((\.\.?|\~)?(\/(excluded|escaped)+)+)` -/
def UNIX_LIKE_LOCAL_LINK_REGEX : RE :=
  RE.seq (RE.opt pathPreClause)
    (REplus (RE.seq (RE.chr '/') (REplus unixPathChar)))

/-- `([a-zA-Z]:|\.\.?|\~)` -/
def winPreClause : RE :=
  RE.alt (RE.seq (RE.cls Char.isAlpha) (RE.chr ':'))
  (RE.alt (RE.seq (RE.chr '.') (RE.opt (RE.chr '.'))) (RE.chr '~'))

/-- `(([a-zA-Z]:|\.\.?|\~)?((\\|\/)(winExcluded)+)+)` -/
def WINDOWS_LOCAL_LINK_REGEX : RE :=
  RE.seq (RE.opt winPreClause)
    (REplus (RE.seq (RE.alt (RE.chr '\\') (RE.chr '/'))
      (REplus (RE.cls (fun c => !winExcludedChar c)))))


/-! ## Node `path.posix` normalize and join

`_resolvePath` calls `path.join(workspaceRoot, link)` on the non-Windows
branches; on a non-Windows host `path` is Node's posix implementation.
Modelled from Node's documented/implemented semantics: `join` concatenates
the non-empty arguments with `/` and normalizes; `normalize` resolves `.`
and `..` segments, collapses repeated separators, keeps a leading `/`
(absolute) and a trailing `/`, and returns `.` for an empty result.
-/

/-- Split a character list on `/`, keeping empty segments. -/
def splitOnSlash : List Char → List (List Char)
  | [] => [[]]
  | c :: rest =>
    if c = '/' then [] :: splitOnSlash rest
    else
      match splitOnSlash rest with
      | s :: ss => (c :: s) :: ss
      | [] => [[c]]

/-- One step of Node's `normalizeString` segment loop.  The accumulator
holds the kept segments in reverse order.  Empty and `.` segments are
dropped; `..` pops the previous segment when possible, is kept when
`allowAboveRoot` (relative paths), and is dropped otherwise (absolute
paths cannot go above the root). -/
def normStep (allowAboveRoot : Bool) (acc : List (List Char)) (seg : List Char) : List (List Char) :=
  if seg = [] ∨ seg = ['.'] then acc
  else if seg = ['.', '.'] then
    match acc with
    | prev :: rest =>
      if prev = ['.', '.'] then (if allowAboveRoot then seg :: acc else acc)
      else rest
    | [] => if allowAboveRoot then [seg] else []
  else seg :: acc

/-- Join segments with `/`. -/
def intercalateSlash : List (List Char) → List Char
  | [] => []
  | [s] => s
  | s :: rest => s ++ '/' :: intercalateSlash rest

/-- Head-character test on a character list. -/
def headIs (c0 : Char) (cs : List Char) : Bool :=
  match cs with
  | [] => false
  | x :: _ => x == c0

/-- Whether the last character is `/`. -/
def lastIsSlash (cs : List Char) : Bool :=
  match cs.getLast? with
  | some x => x == '/'
  | none => false

/-- The normalized segment body of a path (without leading/trailing `/`). -/
def normBody (cs : List Char) : List Char :=
  intercalateSlash (((splitOnSlash cs).foldl (normStep (!headIs '/' cs)) []).reverse)

/-- Body with the trailing separator restored, as Node does. -/
def normTail (cs : List Char) : List Char :=
  if lastIsSlash cs then normBody cs ++ ['/'] else normBody cs

/-- Node `path.posix.normalize` on character lists. -/
def posixNormalizeChars (cs : List Char) : List Char :=
  match cs with
  | [] => ['.']
  | c :: _ =>
    if (normBody cs).isEmpty then
      if c == '/' then ['/']
      else if lastIsSlash cs then ['.', '/'] else ['.']
    else
      if c == '/' then '/' :: normTail cs else normTail cs

/-- Node `path.posix.normalize`. -/
def posixNormalize (s : String) : String :=
  String.mk (posixNormalizeChars s.data)

/-- Node `path.posix.join` of two arguments: the non-empty arguments
joined with `/` and normalized; `.` when both are empty. -/
def posixJoin (a b : String) : String :=
  if a.data.isEmpty && b.data.isEmpty then "."
  else if a.data.isEmpty then posixNormalize b
  else if b.data.isEmpty then posixNormalize a
  else posixNormalize (String.mk (a.data ++ '/' :: b.data))

example : posixJoin "/home/u/project" "./foo" = "/home/u/project/foo" := by decide
example : posixJoin "/home/u/project" "../foo" = "/home/u/foo" := by decide
example : posixJoin "/" ".." = "/" := by decide

/-! ## The platform context and `_resolvePath` -/

/-- The `Platform` enum of vs/base/common/platform.ts. -/
inductive Platform where
  | Web
  | Mac
  | Linux
  | Windows
deriving DecidableEq

/-- The two environment values `_resolvePath` reads on Windows.  `none`
models an unset variable. -/
structure TermEnv where
  HOMEDRIVE : Option String
  HOMEPATH : Option String
deriving DecidableEq

/-- JavaScript truthiness of an optional environment string:
`undefined` and the empty string are falsy. -/
def envTruthy : Option String → Bool
  | none => false
  | some s => !s.data.isEmpty

/-- JavaScript `link.charAt(0) === c`: false on the empty string. -/
def charAt0 (s : String) (c : Char) : Bool :=
  match s.data with
  | [] => false
  | x :: _ => x == c

/-- JavaScript `link.substring(1)`. -/
def substring1 (s : String) : String :=
  String.mk (s.data.drop 1)

/-- The Windows `~` branch of `_resolvePath` (lines 135-140):
`if (!process.env.HOMEDRIVE || !process.env.HOMEPATH) return undefined;
link = `+"`${HOMEDRIVE}\\${HOMEPATH + link.substring(1)}`"+`.
`none` is the resolved-to-undefined promise. -/
def winTilde (env : TermEnv) (link : String) : Option String :=
  if charAt0 link '~' then
    if !envTruthy env.HOMEDRIVE || !envTruthy env.HOMEPATH then none
    else some (env.HOMEDRIVE.getD "" ++ "\\" ++ (env.HOMEPATH.getD "" ++ substring1 link))
  else some link

/-- The dot/workspace branch of `_resolvePath` (lines 143-149 and again
151-158): if the link starts with `.`, abort unless a workspace is open,
else join the workspace root with the link. -/
def dotWorkspaceResolve (join : String → String → String) (ws : Option String) (link : String) : Option String :=
  if charAt0 link '.' then
    match ws with
    | none => none
    | some root => some (join root link)
  else some link

/-- `_resolvePath` up to (but not including) the existence check: the
platform branch (Windows: tilde substitution; otherwise: dot/workspace
join), then the unconditional second dot/workspace join of lines 151-158.
`join` is the host's `path.join` (posix on non-Windows hosts). -/
def resolveCandidate (join : String → String → String) (p : Platform)
    (env : TermEnv) (ws : Option String) (link : String) : Option String :=
  match (if p = Platform.Windows then winTilde env link else dotWorkspaceResolve join ws link) with
  | none => none
  | some l => dotWorkspaceResolve join ws l

/-- Modelled from the spec: `pfs.fileExists` is outside src/; per §6/§7 it
is an existence oracle whose access failures fold to `false` (fail
closed), so it is modelled as a total `String → Bool` parameter.
`_resolvePath` in full: compute the candidate, then
`pfs.fileExists(link).then(isFile => !isFile ? null : link)`; `none`
covers both the `undefined` of an unmet precondition and the `null` of a
missing file. -/
def resolvePath (fs : String → Bool) (join : String → String → String) (p : Platform)
    (env : TermEnv) (ws : Option String) (link : String) : Option String :=
  match resolveCandidate join p env ws link with
  | none => none
  | some l => if fs l then some l else none

/-- `_handleLocalLink`: whether an `openEditor` request is issued.  The
code returns early when the resolved link is falsy (`undefined`, `null`
or the empty string) and otherwise opens the editor. -/
def handleLocalLinkOpens (fs : String → Bool) (join : String → String → String) (p : Platform)
    (env : TermEnv) (ws : Option String) (link : String) : Bool :=
  match resolvePath fs join p env ws link with
  | none => false
  | some resolved => !resolved.data.isEmpty

/-- Modelled from the spec: the resolver of §4.3 with the redundant step 3
removed ("implementers ... may collapse it"): only the platform branch is
kept — Windows performs the tilde substitution, non-Windows performs the
dot/workspace join exactly once — followed by the existence check. -/
def resolveCandidateCollapsed (join : String → String → String) (p : Platform)
    (env : TermEnv) (ws : Option String) (link : String) : Option String :=
  if p = Platform.Windows then winTilde env link else dotWorkspaceResolve join ws link

/-- The collapsed resolver followed by the same existence check. -/
def resolvePathCollapsed (fs : String → Bool) (join : String → String → String) (p : Platform)
    (env : TermEnv) (ws : Option String) (link : String) : Option String :=
  match resolveCandidateCollapsed join p env ws link with
  | none => none
  | some l => if fs l then some l else none

/-! ## Click gating and xterm registration -/

/-- The fields of a MouseEvent that `_wrapLinkHandler` consults. -/
structure TermMouseEvent where
  metaKey : Bool
  ctrlKey : Bool
deriving DecidableEq

/-- Observable outcome of one invocation of a wrapped handler: whether
`preventDefault` was called, whether the inner handler ran, and the
returned value (`handler(uri)` is `boolean | void`, hence `Option Bool`). -/
structure WrapOutcome where
  preventedDefault : Bool
  handlerInvoked : Bool
  returned : Option Bool
deriving DecidableEq

/-- `_wrapLinkHandler`: require ctrl/cmd on click — on Mac the gate is
`!event.metaKey`, elsewhere `!event.ctrlKey`; when gated, call
`event.preventDefault()` and return `false` without running the handler. -/
def wrapLinkHandler (p : Platform) (handler : String → Option Bool)
    (event : TermMouseEvent) (uri : String) : WrapOutcome :=
  if (if p = Platform.Mac then !event.metaKey else !event.ctrlKey) then
    ⟨true, false, some false⟩
  else
    ⟨false, true, handler uri⟩

/-- Priority constants (lines 29-32). -/
def CUSTOM_LINK_PRIORITY : Int := -1

/-- Lowest priority, used for the local link matcher. -/
def LOCAL_LINK_PRIORITY : Int := -2

/-- One call made on the `_xterm` collaborator, as far as registration is
concerned: the two hypertext setters of the constructor, and
`registerLinkMatcher(regex, wrappedHandler, {matchIndex,
validationCallback, priority})` with its non-handler arguments. -/
inductive XtermCall where
  | setHypertextLinkHandler
  | setHypertextValidationCallback
  | registerLinkMatcher (regex : RE) (matchIdx : Option Nat) (hasValidation : Bool) (priority : Int)

/-- The xterm calls performed by the `TerminalLinkHandler` constructor
(lines 45-48), in order. -/
def constructorCalls : List XtermCall :=
  [XtermCall.setHypertextLinkHandler, XtermCall.setHypertextValidationCallback]

/-- `_localLinkRegex`: the platform-selected local link pattern. -/
def localLinkRegex (p : Platform) : RE :=
  if p = Platform.Windows then WINDOWS_LOCAL_LINK_REGEX else UNIX_LIKE_LOCAL_LINK_REGEX

/-- The registration performed by `registerLocalLinkHandler` (lines
59-69): the platform-selected regex, match index 1, a validation
callback, LOCAL_LINK_PRIORITY. -/
def registerLocalLinkHandlerCall (p : Platform) : XtermCall :=
  XtermCall.registerLinkMatcher (localLinkRegex p) (some 1) true LOCAL_LINK_PRIORITY

/-- The registration performed by `registerCustomLinkHandler` (lines
51-57): caller-supplied regex, match index and validation callback, at
CUSTOM_LINK_PRIORITY. -/
def registerCustomLinkHandlerCall (regex : RE) (matchIdx : Option Nat) (hasValidation : Bool) : XtermCall :=
  XtermCall.registerLinkMatcher regex matchIdx hasValidation CUSTOM_LINK_PRIORITY

/-- Whether a call is a `registerLinkMatcher` registration. -/
def isRegisterLinkMatcher : XtermCall → Bool
  | XtermCall.registerLinkMatcher _ _ _ _ => true
  | _ => false

/-! ## Helper lemmas -/

/-- A string whose head test for some character succeeds has that head. -/
theorem charAt0_head (s : String) (c : Char) (h : charAt0 s c = true) :
    ∃ t, s.data = c :: t := by
  unfold charAt0 at h
  cases hs : s.data with
  | nil =>
    rw [hs] at h
    exact Bool.noConfusion h
  | cons x t =>
    rw [hs] at h
    have h2 : (x == c) = true := h
    have hx : x = c := by simpa using h2
    exact ⟨t, by rw [hx]⟩

/-- If the first character of a string is known, every other head test is
false. -/
theorem charAt0_unique (s : String) (c d : Char) (h : charAt0 s c = true) (hne : c ≠ d) :
    charAt0 s d = false := by
  obtain ⟨t, ht⟩ := charAt0_head s c h
  unfold charAt0
  rw [ht]
  show (c == d) = false
  simpa using hne

/-- Normalizing a path that starts with a slash yields a path that starts
with a slash. -/
theorem posixNormalizeChars_slash (rest : List Char) :
    ∃ t, posixNormalizeChars ('/' :: rest) = '/' :: t := by
  have hrfl : posixNormalizeChars ('/' :: rest)
      = if (normBody ('/' :: rest)).isEmpty then
          (if ('/' : Char) == '/' then ['/']
           else if lastIsSlash ('/' :: rest) then ['.', '/'] else ['.'])
        else
          (if ('/' : Char) == '/' then '/' :: normTail ('/' :: rest)
           else normTail ('/' :: rest)) := rfl
  rw [hrfl]
  by_cases h : (normBody ('/' :: rest)).isEmpty
  · exact ⟨[], by simp [h]⟩
  · exact ⟨normTail ('/' :: rest), by simp [h]⟩

/-- Joining onto an absolute root yields an absolute path. -/
theorem posixJoin_slash (a b : String) (h : charAt0 a '/' = true) :
    charAt0 (posixJoin a b) '/' = true := by
  obtain ⟨t, ht⟩ := charAt0_head a '/' h
  have hne : a.data.isEmpty = false := by rw [ht]; rfl
  unfold posixJoin
  rw [ht]
  by_cases hb : b.data.isEmpty
  · obtain ⟨u, hu⟩ := posixNormalizeChars_slash t
    simp only [hb, List.isEmpty_cons, Bool.false_and, Bool.and_true, if_false]
    unfold posixNormalize charAt0
    rw [ht, hu]
    simp
  · obtain ⟨u, hu⟩ := posixNormalizeChars_slash (t ++ '/' :: b.data)
    simp only [hb, List.isEmpty_cons, Bool.false_and, Bool.and_false, if_false]
    unfold posixNormalize charAt0
    rw [ht]
    simp only [List.cons_append]
    rw [hu]
    simp

/-! ## The claims -/

/-- C1: the claim fails on the code.  The Unix-like regex matches the
input /a+b in full even though + is an unescaped excluded character (the
alternative written as the two-character source sequence backslash-plus
denotes an escaped literal and matches a bare +), and the backslash-escaped
parenthesis in /a(b preceded by a backslash is not accepted as content:
the match stops at /a followed by the dangling backslash, because the
clause contains the empty-matching group (|) where escaped parentheses
were intended. -/
theorem c1_unix_escaped_clause_slip :
    reFirstMatch UNIX_LIKE_LOCAL_LINK_REGEX "/a+b".data = some "/a+b".data
  ∧ unixExcludedChar '+' = true
  ∧ "/a+b".data.contains '\\' = false
  ∧ reFirstMatch UNIX_LIKE_LOCAL_LINK_REGEX "/a\\(b".data = some "/a\\".data := by
  decide

/-- C3: the claim fails on the code.  Bare ~ never matches and ~/a (Unix)
and backslash-separated ~ paths (Windows) match, as claimed; but a
separator with empty content is not always rejected: the Unix-like
pattern matches the two-character string ~/ in full, because the empty
group (|) in the escaped clause lets the content repetition match zero
characters.  The Windows pattern rejects the analogous input. -/
theorem c3_empty_separator_group :
    reFirstMatch UNIX_LIKE_LOCAL_LINK_REGEX "~".data = none
  ∧ reFirstMatch WINDOWS_LOCAL_LINK_REGEX "~".data = none
  ∧ reFirstMatch UNIX_LIKE_LOCAL_LINK_REGEX "~/a".data = some "~/a".data
  ∧ reFirstMatch WINDOWS_LOCAL_LINK_REGEX "~\\a".data = some "~\\a".data
  ∧ reFirstMatch UNIX_LIKE_LOCAL_LINK_REGEX "~/".data = some "~/".data
  ∧ reFirstMatch WINDOWS_LOCAL_LINK_REGEX "~\\".data = none := by
  decide

/-- C2 counterexample: on Windows with home drive C: and home path
\Users\u, the candidate handed to the existence check for ~/foo is
C:\\Users\u/foo — an extra backslash after the drive and the remainder
kept verbatim — not the claimed C:\Users\u\foo. -/
theorem c2_tilde_counterexample :
    resolveCandidate posixJoin Platform.Windows ⟨some "C:", some "\\Users\\u"⟩ none "~/foo"
      = some "C:\\\\Users\\u/foo"
  ∧ ("C:\\\\Users\\u/foo" : String) ≠ "C:\\Users\\u\\foo" := by
  decide

/-- C2 (amended): on Windows, when both home values are present (and
non-empty) and the home drive does not itself start with a dot, resolving
a tilde link substitutes the ~ with home drive, a backslash, and home
path, keeping the remainder of the link verbatim; with home drive C: and
home path \Users\u the candidate for ~/foo is therefore C:\\Users\u/foo. -/
theorem c2_tilde_substitution (join : String → String → String) (env : TermEnv)
    (ws : Option String) (link hd hp : String)
    (hhd : env.HOMEDRIVE = some hd) (hhp : env.HOMEPATH = some hp)
    (hdne : hd.data.isEmpty = false) (hpne : hp.data.isEmpty = false)
    (hlink : charAt0 link '~' = true) (hdot : charAt0 hd '.' = false) :
    resolveCandidate join Platform.Windows env ws link
      = some (hd ++ "\\" ++ (hp ++ substring1 link)) := by
  have hstep : winTilde env link = some (hd ++ "\\" ++ (hp ++ substring1 link)) := by
    unfold winTilde
    rw [hlink]
    simp [envTruthy, hhd, hhp, hdne, hpne]
  have hhead : charAt0 (hd ++ "\\" ++ (hp ++ substring1 link)) '.' = false := by
    obtain ⟨c, t, hct⟩ : ∃ c t, hd.data = c :: t := by
      cases hs : hd.data with
      | nil => rw [hs] at hdne; cases hdne
      | cons c t => exact ⟨c, t, rfl⟩
    have hc : (c == '.') = false := by
      unfold charAt0 at hdot; rw [hct] at hdot; exact hdot
    unfold charAt0
    rw [String.data_append, String.data_append, hct]
    simpa using hc
  unfold resolveCandidate
  rw [if_pos rfl, hstep]
  show dotWorkspaceResolve join ws (hd ++ "\\" ++ (hp ++ substring1 link))
      = some (hd ++ "\\" ++ (hp ++ substring1 link))
  unfold dotWorkspaceResolve
  rw [hhead]
  simp

/-- C2 amended-claim witness at the stated concrete input. -/
theorem c2_tilde_substitution_witness :
    resolveCandidate posixJoin Platform.Windows ⟨some "C:", some "\\Users\\u"⟩ none "~/foo"
      = some ("C:" ++ "\\" ++ ("\\Users\\u" ++ substring1 "~/foo")) :=
  c2_tilde_substitution posixJoin ⟨some "C:", some "\\Users\\u"⟩ none "~/foo" "C:" "\\Users\\u"
    rfl rfl (by decide) (by decide) (by decide) (by decide)

/-- C4: with an unmet precondition — a dot-relative link with no open
workspace (on any platform), or a Windows tilde link with HOMEDRIVE or
HOMEPATH missing or empty — the candidate is already absent, so
resolution returns the absent outcome for every filesystem state without
consulting the existence check. -/
theorem c4_precondition_absent (join : String → String → String) (p : Platform)
    (env : TermEnv) (ws : Option String) (link : String) (fs : String → Bool) :
    (charAt0 link '.' = true → ws = none →
      resolveCandidate join p env ws link = none
      ∧ resolvePath fs join p env ws link = none)
  ∧ (charAt0 link '~' = true →
      (envTruthy env.HOMEDRIVE = false ∨ envTruthy env.HOMEPATH = false) →
      resolveCandidate join Platform.Windows env ws link = none
      ∧ resolvePath fs join Platform.Windows env ws link = none) := by
  constructor
  · intro hdot hws
    have hcand : resolveCandidate join p env ws link = none := by
      by_cases hw : p = Platform.Windows
      · have ht : charAt0 link '~' = false :=
          charAt0_unique link '.' '~' hdot (by decide)
        subst hw
        simp [resolveCandidate, winTilde, ht, dotWorkspaceResolve, hdot, hws]
      · simp [resolveCandidate, hw, dotWorkspaceResolve, hdot, hws]
    exact ⟨hcand, by simp [resolvePath, hcand]⟩
  · intro ht henv
    have hcand : resolveCandidate join Platform.Windows env ws link = none := by
      have hcond : (!envTruthy env.HOMEDRIVE || !envTruthy env.HOMEPATH) = true := by
        rcases henv with h | h <;> simp [h]
      simp [resolveCandidate, winTilde, ht, hcond]
    exact ⟨hcand, by simp [resolvePath, hcand]⟩

/-- C4 witness: a dot-relative link with no workspace on Linux, and a
Windows tilde link with HOMEDRIVE unset, both resolve to the absent
outcome even on a filesystem where every path exists. -/
theorem c4_precondition_absent_witness :
    (resolveCandidate posixJoin Platform.Linux ⟨none, some "x"⟩ none "./foo" = none
     ∧ resolvePath (fun _ => true) posixJoin Platform.Linux ⟨none, some "x"⟩ none "./foo" = none)
  ∧ (resolveCandidate posixJoin Platform.Windows ⟨none, some "x"⟩ none "~/foo" = none
     ∧ resolvePath (fun _ => true) posixJoin Platform.Windows ⟨none, some "x"⟩ none "~/foo" = none) :=
  ⟨(c4_precondition_absent posixJoin Platform.Linux ⟨none, some "x"⟩ none "./foo"
      (fun _ => true)).1 (by decide) rfl,
   (c4_precondition_absent posixJoin Platform.Windows ⟨none, some "x"⟩ none "~/foo"
      (fun _ => true)).2 (by decide) (Or.inl (by decide))⟩

/-- C5: every resolution failure is the absent outcome at the resolver
boundary — an absent candidate (unmet precondition) and a failing
existence check both give the absent result of the total resolver — and a
local-link click whose resolution is absent issues no editor-open
request. -/
theorem c5_failure_absent (fs : String → Bool) (join : String → String → String)
    (p : Platform) (env : TermEnv) (ws : Option String) (link : String) :
    (resolveCandidate join p env ws link = none → resolvePath fs join p env ws link = none)
  ∧ (∀ c, resolveCandidate join p env ws link = some c → fs c = false →
      resolvePath fs join p env ws link = none)
  ∧ (resolvePath fs join p env ws link = none →
      handleLocalLinkOpens fs join p env ws link = false) :=
  ⟨fun h => by simp [resolvePath, h],
   fun c h hf => by simp [resolvePath, h, hf],
   fun h => by simp [handleLocalLinkOpens, h]⟩

/-- C5 witness: an unmet precondition and a failing existence check both
yield the absent outcome, and the absent outcome opens no editor. -/
theorem c5_failure_absent_witness :
    resolvePath (fun _ => false) posixJoin Platform.Linux ⟨none, none⟩ none "./x" = none
  ∧ resolvePath (fun _ => false) posixJoin Platform.Linux ⟨none, none⟩ none "a" = none
  ∧ handleLocalLinkOpens (fun _ => false) posixJoin Platform.Linux ⟨none, none⟩ none "a" = false :=
  ⟨(c5_failure_absent (fun _ => false) posixJoin Platform.Linux ⟨none, none⟩ none "./x").1
      (by decide),
   (c5_failure_absent (fun _ => false) posixJoin Platform.Linux ⟨none, none⟩ none "a").2.1
      "a" (by decide) rfl,
   (c5_failure_absent (fun _ => false) posixJoin Platform.Linux ⟨none, none⟩ none "a").2.2
      ((c5_failure_absent (fun _ => false) posixJoin Platform.Linux ⟨none, none⟩ none "a").2.1
        "a" (by decide) rfl)⟩

/-- C6: a pointer event lacking the platform-conventional modifier
(metaKey on Mac, ctrlKey on every other platform) always has its default
behavior suppressed and never reaches the underlying handler, whatever
that handler is — the same wrapper is used for built-in and custom
handlers. -/
theorem c6_click_gate (p : Platform) (handler : String → Option Bool)
    (event : TermMouseEvent) (uri : String)
    (h : (if p = Platform.Mac then event.metaKey else event.ctrlKey) = false) :
    wrapLinkHandler p handler event uri = ⟨true, false, some false⟩ := by
  unfold wrapLinkHandler
  by_cases hm : p = Platform.Mac
  · rw [if_pos hm] at h ⊢
    rw [h]
    simp
  · rw [if_neg hm] at h ⊢
    rw [h]
    simp

/-- C6 witness: on Linux a click with metaKey held but ctrlKey absent is
gated. -/
theorem c6_click_gate_witness :
    wrapLinkHandler Platform.Linux (fun _ => some true) ⟨true, false⟩ "file"
      = ⟨true, false, some false⟩ :=
  c6_click_gate Platform.Linux (fun _ => some true) ⟨true, false⟩ "file" (by decide)

/-- C7 counterexample: the constructor performs no registerLinkMatcher
call at all — it only installs the hypertext link handler and the
hypertext validation callback — so in particular the local-path matcher
is not registered at construction time. -/
theorem c7_constructor_no_matcher :
    constructorCalls.all (fun c => !isRegisterLinkMatcher c) = true := by
  decide

/-- C7 (amended): construction registers only the default hypertext link
handler and validation callback; the local-path matcher becomes
registered only through the separate registerLocalLinkHandler call, which
registers the platform-selected pattern (Windows pattern on Windows, the
Unix-like pattern elsewhere) with match index 1, a validation callback,
and LOCAL_LINK priority (-2, below the custom priority -1). -/
theorem c7_registration :
    constructorCalls
      = [XtermCall.setHypertextLinkHandler, XtermCall.setHypertextValidationCallback]
  ∧ (∀ p, registerLocalLinkHandlerCall p
      = XtermCall.registerLinkMatcher (localLinkRegex p) (some 1) true LOCAL_LINK_PRIORITY)
  ∧ localLinkRegex Platform.Windows = WINDOWS_LOCAL_LINK_REGEX
  ∧ localLinkRegex Platform.Linux = UNIX_LIKE_LOCAL_LINK_REGEX
  ∧ localLinkRegex Platform.Mac = UNIX_LIKE_LOCAL_LINK_REGEX
  ∧ localLinkRegex Platform.Web = UNIX_LIKE_LOCAL_LINK_REGEX
  ∧ LOCAL_LINK_PRIORITY = -2 ∧ LOCAL_LINK_PRIORITY < CUSTOM_LINK_PRIORITY :=
  ⟨rfl, fun _ => rfl, rfl, rfl, rfl, rfl, rfl, by decide⟩

/-- C8: on every non-Windows platform, with workspace root
/home/u/project open, resolving ./foo produces the candidate
/home/u/project/foo (the workspace root joined with the string) before
the existence check. -/
theorem c8_dot_workspace_join (p : Platform) (env : TermEnv)
    (hp : p ≠ Platform.Windows) :
    resolveCandidate posixJoin p env (some "/home/u/project") "./foo"
      = some "/home/u/project/foo" := by
  have h1 : resolveCandidate posixJoin p env (some "/home/u/project") "./foo"
      = match dotWorkspaceResolve posixJoin (some "/home/u/project") "./foo" with
        | none => none
        | some l => dotWorkspaceResolve posixJoin (some "/home/u/project") l := by
    unfold resolveCandidate
    rw [if_neg hp]
  rw [h1]
  decide

/-- C8 witness at Linux. -/
theorem c8_dot_workspace_join_witness :
    resolveCandidate posixJoin Platform.Linux ⟨none, none⟩ (some "/home/u/project") "./foo"
      = some "/home/u/project/foo" :=
  c8_dot_workspace_join Platform.Linux ⟨none, none⟩ (by decide)

/-- C9 counterexample: on Windows with no workspace open and a filesystem
where every path exists, the implemented resolver rejects ./foo (the
re-applied dot/workspace step aborts without a workspace) while the
collapsed resolver passes ./foo to the existence check and resolves it —
so collapsing step 3 changes the outcome. -/
theorem c9_collapse_counterexample :
    resolvePath (fun _ => true) posixJoin Platform.Windows ⟨none, none⟩ none "./foo" = none
  ∧ resolvePathCollapsed (fun _ => true) posixJoin Platform.Windows ⟨none, none⟩ none "./foo"
      = some "./foo" := by
  decide

/-- C9 (amended): given an absolute workspace root, the resolver with the
dot/workspace join performed only once is extensionally equal to the
implemented resolver on every non-Windows platform, for every link,
environment and filesystem; on Windows the collapse is observable on
dot-relative inputs. -/
theorem c9_collapse_eq (p : Platform) (env : TermEnv) (ws : Option String)
    (link : String) (fs : String → Bool) (hp : p ≠ Platform.Windows)
    (habs : ∀ r, ws = some r → charAt0 r '/' = true) :
    resolvePath fs posixJoin p env ws link
      = resolvePathCollapsed fs posixJoin p env ws link := by
  have hcand : resolveCandidate posixJoin p env ws link
      = resolveCandidateCollapsed posixJoin p env ws link := by
    unfold resolveCandidate resolveCandidateCollapsed
    rw [if_neg hp]
    by_cases hdot : charAt0 link '.' = true
    · cases hws : ws with
      | none => simp [dotWorkspaceResolve, hdot]
      | some r =>
        have hroot : charAt0 r '/' = true := habs r hws
        have hjoin : charAt0 (posixJoin r link) '/' = true := posixJoin_slash r link hroot
        have hjdot : charAt0 (posixJoin r link) '.' = false :=
          charAt0_unique (posixJoin r link) '/' '.' hjoin (by decide)
        simp [dotWorkspaceResolve, hdot, hjdot]
    · have hdot2 : charAt0 link '.' = false := by
        cases hv : charAt0 link '.' with
        | false => rfl
        | true => exact absurd hv hdot
      simp [dotWorkspaceResolve, hdot2]
  unfold resolvePath resolvePathCollapsed
  rw [hcand]

/-- C9 amended-claim witness: on Linux with absolute root /w the two
resolvers agree on ./f. -/
theorem c9_collapse_eq_witness :
    resolvePath (fun _ => true) posixJoin Platform.Linux ⟨none, none⟩ (some "/w") "./f"
      = resolvePathCollapsed (fun _ => true) posixJoin Platform.Linux ⟨none, none⟩ (some "/w") "./f" :=
  c9_collapse_eq Platform.Linux ⟨none, none⟩ (some "/w") "./f" (fun _ => true) (by decide)
    (fun r hr => by
      have hrw : r = "/w" := by injection hr with h; exact h.symm
      rw [hrw]
      decide)

/-- C10: on every non-Windows platform a link beginning with ~ undergoes
no tilde expansion: the candidate handed to the existence check is the
link itself, and resolution succeeds exactly when the existence check
accepts the verbatim, unexpanded string. -/
theorem c10_unix_tilde_verbatim (join : String → String → String) (p : Platform)
    (env : TermEnv) (ws : Option String) (link : String) (fs : String → Bool)
    (hp : p ≠ Platform.Windows) (hl : charAt0 link '~' = true) :
    resolveCandidate join p env ws link = some link
  ∧ resolvePath fs join p env ws link = (if fs link then some link else none) := by
  have hdot : charAt0 link '.' = false := charAt0_unique link '~' '.' hl (by decide)
  have hcand : resolveCandidate join p env ws link = some link := by
    unfold resolveCandidate
    rw [if_neg hp]
    simp [dotWorkspaceResolve, hdot]
  exact ⟨hcand, by simp [resolvePath, hcand]⟩

/-- C10 witness: on Linux, ~/x is passed through verbatim and fails on a
filesystem with no such literal file. -/
theorem c10_unix_tilde_verbatim_witness :
    resolveCandidate posixJoin Platform.Linux ⟨none, none⟩ none "~/x" = some "~/x"
  ∧ resolvePath (fun _ => false) posixJoin Platform.Linux ⟨none, none⟩ none "~/x" = none := by
  have h := c10_unix_tilde_verbatim posixJoin Platform.Linux ⟨none, none⟩ none "~/x"
    (fun _ => false) (by decide) (by decide)
  exact ⟨h.1, by simpa using h.2⟩
